import Mathlib

/-!
Shallow embedding of the ur5_genAI_moveIT command pipeline: the pydantic
data model (src/schema/schema.py), the safety filter (src/safety/filter.py),
and the NLBridge step executor (src/bridge/bridge.py).  Python floats are
modelled as exact rationals; all source constants used here are exactly
representable, so comparisons agree with the source.  Hint strings of the
filter and exception detail strings are elided down to their stable reason
codes, which is what every claim talks about.
-/

deriving instance DecidableEq for Except

namespace UR5

/-- Grasp model (schema.py, class Grasp): how a pick approaches an object.
The source declares approach_axis as a required str and pregrasp_m as a
float with default 0.08 and no further constraint. -/
structure Grasp where
  approach_axis : String
  pregrasp_m : ℚ := 0.08
deriving DecidableEq

/-- Constraints model (schema.py, class Constraints): per-step movement
restrictions, keep_vertical default false, clearance_m default 0.03,
no range constraint in the source. -/
structure Constraints where
  keep_vertical : Bool := false
  clearance_m : ℚ := 0.03
deriving DecidableEq

/-- Step model (schema.py, class Step): the atomic instruction.  The source
declares action as a plain required str (the allowed values appear only in
a Field description, which pydantic does not enforce), every other field
optional, cartesian defaulting to False. -/
structure Step where
  action : String
  object : Option String := none
  target : Option String := none
  frame : Option String := none
  pose_xyzrpy : Option (List ℚ) := none
  offset_xyz : Option (List ℚ) := none
  grasp : Option Grasp := none
  constraints : Option Constraints := none
  cartesian : Option Bool := some false
deriving DecidableEq

/-- Globals model (schema.py, class Globals): command-wide scaling factors,
floats with defaults 0.5 and 0.3 and no range constraint in the source. -/
structure Globals where
  vel_scale : ℚ := 0.5
  accel_scale : ℚ := 0.3
deriving DecidableEq

/-- Command model (schema.py, class Command): ordered steps plus globals
(field globals_ with alias globals, default constructed). -/
structure Command where
  steps : List Step
  globals_ : Globals := {}
deriving DecidableEq

/-- Python truthiness of an Optional list field: None and the empty list
are falsy, a non-empty list is truthy. -/
def truthyList : Option (List ℚ) → Bool
  | some (_ :: _) => true
  | _ => false

/-- Python truthiness of an Optional str field: None and the empty string
are falsy. -/
def truthyStr : Option String → Bool
  | some s => !s.isEmpty
  | none => false

/-- A Python runtime error that the safety filter itself can raise:
indexing past the end of the (sliced) pose list inside in_aabb. -/
inductive PyErr where
  | indexError
deriving DecidableEq

/-- filter.py WORKSPACE_AABB: three closed intervals for x, y, z. -/
def WORKSPACE_AABB : List (ℚ × ℚ) := [(-0.4, 0.6), (-0.4, 0.6), (0, 0.6)]

/-- filter.py VEL_CAP. -/
def VEL_CAP : ℚ := 0.6

/-- filter.py ACC_CAP. -/
def ACC_CAP : ℚ := 0.6

/-- filter.py ALLOWED_ACTIONS. -/
def ALLOWED_ACTIONS : List String := ["pick", "place", "move_ee"]

/-- One axis at a time, mirroring the generator all over range(3) inside
in_aabb: point[i] raises IndexError when the point list is exhausted, and
a failed bound short-circuits the all without touching later indices. -/
def in_aabbGo : List (ℚ × ℚ) → List ℚ → Except PyErr Bool
  | [], _ => Except.ok true
  | _ :: _, [] => Except.error PyErr.indexError
  | (lo, hi) :: bs, p :: ps =>
    if lo ≤ p ∧ p ≤ hi then in_aabbGo bs ps else Except.ok false

/-- filter.py in_aabb, applied by validate_command to pose_xyzrpy sliced
to its first three elements. -/
def in_aabb (point : List ℚ) : Except PyErr Bool :=
  in_aabbGo WORKSPACE_AABB point

/-- Decision of the safety filter, keeping the stable error code of the
returned dict and eliding the formatted hint text. -/
inductive FilterResult where
  | ok
  | err (code : String)
deriving DecidableEq

/-- The per-step loop of filter.py validate_command: for each step in
order, first the action allow-list, then (only when pose_xyzrpy is truthy)
the workspace bound on the first three pose entries; the first violation
returns immediately. -/
def checkSteps : List Step → Except PyErr (Option FilterResult)
  | [] => Except.ok none
  | step :: rest =>
    if ALLOWED_ACTIONS.contains step.action = false then
      Except.ok (some (FilterResult.err ("invalid_action")))
    else if truthyList step.pose_xyzrpy then
      match in_aabb ((step.pose_xyzrpy.getD []).take 3) with
      | Except.error e => Except.error e
      | Except.ok true => checkSteps rest
      | Except.ok false => Except.ok (some (FilterResult.err ("out_of_workspace")))
    else
      checkSteps rest

/-- filter.py validate_command: the step loop, then the velocity cap, then
the acceleration cap; Except.error models an uncaught Python exception. -/
def validate_command (cmd : Command) : Except PyErr FilterResult :=
  match checkSteps cmd.steps with
  | Except.error e => Except.error e
  | Except.ok (some r) => Except.ok r
  | Except.ok none =>
    if VEL_CAP < cmd.globals_.vel_scale then Except.ok (FilterResult.err ("vel_too_high"))
    else if ACC_CAP < cmd.globals_.accel_scale then Except.ok (FilterResult.err ("accel_too_high"))
    else Except.ok FilterResult.ok

/-! Raw JSON values and the pydantic model_validate layer, as exercised by
Command.model_validate in bridge.py on_json and glue/compile.py.  Numeric
leaves carry exact rationals.  Pydantic validates declared types and
required-ness and applies defaults; this schema declares no value
constraints (no enum on action, no range or finiteness bounds on floats),
so none are present here either.  Lax string-to-number coercions are not
modelled; every raw input used below carries the declared types. -/

/-- A raw JSON value as delivered on /nl_task_json. -/
inductive JVal where
  | null
  | bool (b : Bool)
  | num (q : ℚ)
  | str (s : String)
  | arr (xs : List JVal)
  | obj (fields : List (String × JVal))

/-- Validation failure raised by pydantic (surfaced as schema_error by the
bridge and as schema_validation_failed by glue/compile.py). -/
inductive SchemaErr where
  | missing (field : String)
  | wrongType (field : String)
deriving DecidableEq

/-- Field lookup in a raw object; non-objects have no fields. -/
def JVal.getField : JVal → String → Option JVal
  | JVal.obj fs, k => fs.lookup k
  | _, _ => none

/-- Read a raw value as a str. -/
def asStr : JVal → Option String
  | JVal.str s => some s
  | _ => none

/-- Read a raw value as a float. -/
def asNum : JVal → Option ℚ
  | JVal.num q => some q
  | _ => none

/-- Read a raw value as a bool. -/
def asBool : JVal → Option Bool
  | JVal.bool b => some b
  | _ => none

/-- Read a raw value as a List of floats. -/
def asNumList : JVal → Option (List ℚ)
  | JVal.arr xs => xs.mapM asNum
  | _ => none

/-- A required field of type str (pydantic Field with no default). -/
def reqStr (j : JVal) (k : String) : Except SchemaErr String :=
  match j.getField k with
  | none => Except.error (SchemaErr.missing k)
  | some v =>
    match asStr v with
    | some s => Except.ok s
    | none => Except.error (SchemaErr.wrongType k)

/-- An Optional str field with default None; an explicit null is None. -/
def optStr (j : JVal) (k : String) : Except SchemaErr (Option String) :=
  match j.getField k with
  | none => Except.ok none
  | some JVal.null => Except.ok none
  | some v =>
    match asStr v with
    | some s => Except.ok (some s)
    | none => Except.error (SchemaErr.wrongType k)

/-- A float field with a declared default; absent means the default, null
or a non-number is a type error (the field is not Optional). -/
def defNum (j : JVal) (k : String) (d : ℚ) : Except SchemaErr ℚ :=
  match j.getField k with
  | none => Except.ok d
  | some v =>
    match asNum v with
    | some q => Except.ok q
    | none => Except.error (SchemaErr.wrongType k)

/-- A bool field with a declared default. -/
def defBool (j : JVal) (k : String) (d : Bool) : Except SchemaErr Bool :=
  match j.getField k with
  | none => Except.ok d
  | some v =>
    match asBool v with
    | some b => Except.ok b
    | none => Except.error (SchemaErr.wrongType k)

/-- An Optional List of floats with default None. -/
def optNumList (j : JVal) (k : String) : Except SchemaErr (Option (List ℚ)) :=
  match j.getField k with
  | none => Except.ok none
  | some JVal.null => Except.ok none
  | some v =>
    match asNumList v with
    | some xs => Except.ok (some xs)
    | none => Except.error (SchemaErr.wrongType k)

/-- Validate a raw value against the Grasp model. -/
def validateGrasp (j : JVal) : Except SchemaErr Grasp := do
  let ax ← reqStr j ("approach_axis")
  let pg ← defNum j ("pregrasp_m") 0.08
  Except.ok { approach_axis := ax, pregrasp_m := pg }

/-- Validate a raw value against the Constraints model. -/
def validateConstraints (j : JVal) : Except SchemaErr Constraints := do
  let kv ← defBool j ("keep_vertical") false
  let cl ← defNum j ("clearance_m") 0.03
  Except.ok { keep_vertical := kv, clearance_m := cl }

/-- An Optional nested model field with default None. -/
def optModel {α : Type} (f : JVal → Except SchemaErr α) (j : JVal) (k : String) :
    Except SchemaErr (Option α) :=
  match j.getField k with
  | none => Except.ok none
  | some JVal.null => Except.ok none
  | some v =>
    match f v with
    | Except.ok a => Except.ok (some a)
    | Except.error e => Except.error e

/-- An Optional bool field with a non-None declared default (Step.cartesian
is Optional with default False, so absent gives some false and an explicit
null gives none). -/
def optBoolDef (j : JVal) (k : String) (d : Bool) : Except SchemaErr (Option Bool) :=
  match j.getField k with
  | none => Except.ok (some d)
  | some JVal.null => Except.ok none
  | some v =>
    match asBool v with
    | some b => Except.ok (some b)
    | none => Except.error (SchemaErr.wrongType k)

/-- Validate a raw value against the Step model.  action is validated only
as a required str: the source constrains its value nowhere (the pipe list
lives in a Field description, which is documentation). -/
def validateStep (j : JVal) : Except SchemaErr Step := do
  let a ← reqStr j ("action")
  let ob ← optStr j ("object")
  let tg ← optStr j ("target")
  let fr ← optStr j ("frame")
  let pose ← optNumList j ("pose_xyzrpy")
  let off ← optNumList j ("offset_xyz")
  let gr ← optModel validateGrasp j ("grasp")
  let cons ← optModel validateConstraints j ("constraints")
  let ca ← optBoolDef j ("cartesian") false
  Except.ok { action := a, object := ob, target := tg, frame := fr,
              pose_xyzrpy := pose, offset_xyz := off, grasp := gr,
              constraints := cons, cartesian := ca }

/-- Validate a raw value against the Globals model: two floats with
defaults and no range check. -/
def validateGlobals (j : JVal) : Except SchemaErr Globals := do
  let v ← defNum j ("vel_scale") 0.5
  let a ← defNum j ("accel_scale") 0.3
  Except.ok { vel_scale := v, accel_scale := a }

/-- Validate the list of raw steps in order. -/
def validateStepList : List JVal → Except SchemaErr (List Step)
  | [] => Except.ok []
  | v :: vs => do
    let s ← validateStep v
    let rest ← validateStepList vs
    Except.ok (s :: rest)

/-- Command.model_validate: requires a steps list of Step objects, reads
globals through its alias, default-constructs Globals when absent. -/
def model_validate_command (j : JVal) : Except SchemaErr Command := do
  let stepsRaw ←
    match j.getField ("steps") with
    | none => Except.error (SchemaErr.missing ("steps"))
    | some (JVal.arr xs) => Except.ok xs
    | some _ => Except.error (SchemaErr.wrongType ("steps"))
  let steps ← validateStepList stepsRaw
  let g ←
    match j.getField ("globals") with
    | none => Except.ok ({} : Globals)
    | some v => validateGlobals v
  Except.ok { steps := steps, globals_ := g }

/-! The NLBridge step executor (bridge.py).  External collaborators
(MoveGroupCommander, TF lookups) are a Backend of oracles; every call the
bridge issues to them is recorded in an ExecState trace, and the installed
path-constraint state is tracked explicitly.  Orientation data is elided:
no branch of the bridge inspects it. -/

/-- A target position; roll/pitch/yaw are dropped, no decision reads them. -/
structure Pos3 where
  x : ℚ
  y : ℚ
  z : ℚ
deriving DecidableEq

/-- One observable call on the MoveIt backend or the planning scene. -/
inductive BCall where
  | setVelScaling (v : ℚ)
  | setAccelScaling (a : ℚ)
  | clearPathConstraints
  | setPathConstraints
  | setStartState
  | setPoseTarget (p : Pos3)
  | plan
  | executeTraj
  | clearPoseTargets
  | cartesianReq (p : Pos3)
  | executeCartesian
deriving DecidableEq

/-- Mutable state the executor touches: the ordered backend-call trace and
whether a path constraint is currently installed on the move group. -/
structure ExecState where
  trace : List BCall := []
  constraintActive : Bool := false
deriving DecidableEq

/-- Record one backend call. -/
def ExecState.push (s : ExecState) (c : BCall) : ExecState :=
  { s with trace := s.trace ++ [c] }

/-- Behaviour of the external collaborators: whether plan() yields a
non-empty trajectory for the current target, the completed fraction
compute_cartesian_path reports for a waypoint, and TF frame lookup
(none models a lookup that raises). -/
structure Backend where
  planOk : Pos3 → Bool
  cartFraction : Pos3 → ℚ
  lookup : String → Option Pos3

/-- bridge.py _apply_constraints: always clears the installed constraint
first, then installs the orientation constraint only when the step has a
Constraints object with keep_vertical set. -/
def apply_constraints (cons : Option Constraints) (s : ExecState) : ExecState :=
  let s := { s.push BCall.clearPathConstraints with constraintActive := false }
  match cons with
  | none => s
  | some c =>
    if c.keep_vertical then
      { s.push BCall.setPathConstraints with constraintActive := true }
    else s

/-- bridge.py _clear_constraints. -/
def clear_constraints (s : ExecState) : ExecState :=
  { s.push BCall.clearPathConstraints with constraintActive := false }

/-- bridge.py _pose_from_step: a truthy pose_xyzrpy wins (its conversion
needs six entries, fewer raise during unpacking or rpy indexing); otherwise
a truthy frame and offset pair resolves the frame and adds the first three
offset entries; otherwise RuntimeError pose_missing.  Errors are the
exception reason strings the caller embeds in its message. -/
def pose_from_step (B : Backend) (st : Step) : Except String Pos3 :=
  if truthyList st.pose_xyzrpy then
    match st.pose_xyzrpy.getD [] with
    | x :: y :: z :: _ :: _ :: _ :: _ => Except.ok { x := x, y := y, z := z }
    | _ => Except.error ("pose_conversion_failed")
  else if truthyStr st.frame ∧ truthyList st.offset_xyz then
    match B.lookup (st.frame.getD ("")) with
    | none => Except.error ("tf_lookup_failed")
    | some base =>
      match st.offset_xyz.getD [] with
      | dx :: dy :: dz :: _ =>
        Except.ok { x := base.x + dx, y := base.y + dy, z := base.z + dz }
      | _ => Except.error ("index_error")
  else
    Except.error ("pose_missing")

/-- The pregrasp distance a pick uses: step.grasp.pregrasp_m if the step
has a grasp, else 0.08. -/
def pregraspOf (st : Step) : ℚ :=
  match st.grasp with
  | some g => g.pregrasp_m
  | none => 0.08

/-- bridge.py _do_move: resolve the pose (an exception here is caught and
reported before any constraint is touched), apply constraints, plan; on a
failed plan return plan_failed at once — the source clears the installed
constraint only on the success path of this handler. -/
def _do_move (B : Backend) (st : Step) (s : ExecState) :
    (Bool × Option String) × ExecState :=
  match pose_from_step B st with
  | Except.error e => ((false, some (String.append ("move_exception:") e)), s)
  | Except.ok pose =>
    let s := apply_constraints st.constraints s
    let s := s.push BCall.setStartState
    let s := s.push (BCall.setPoseTarget pose)
    let s := s.push BCall.plan
    if B.planOk pose then
      let s := s.push BCall.executeTraj
      let s := s.push BCall.clearPoseTargets
      let s := clear_constraints s
      ((true, none), s)
    else
      ((false, some ("plan_failed")), s)

/-- bridge.py _do_pick: pregrasp plan, cartesian descend gated at fraction
0.99, cartesian lift gated at 0.99; every failure branch and the success
branch call _clear_constraints, and the except handler does too (the
object lookup precedes _apply_constraints in the source). -/
def _do_pick (B : Backend) (st : Step) (s : ExecState) :
    (Bool × Option String) × ExecState :=
  match st.object.bind B.lookup with
  | none =>
    ((false, some ("pick_exception:tf_lookup_failed")), clear_constraints s)
  | some base =>
    let preg := pregraspOf st
    let pre : Pos3 := { x := base.x, y := base.y, z := base.z + preg }
    let s := apply_constraints st.constraints s
    let s := s.push BCall.setStartState
    let s := s.push (BCall.setPoseTarget pre)
    let s := s.push BCall.plan
    if B.planOk pre = false then
      ((false, some ("pregrasp_plan_failed")), clear_constraints s)
    else
      let s := s.push BCall.executeTraj
      let d : Pos3 := { x := pre.x, y := pre.y, z := pre.z - (preg - 0.01) }
      let s := s.push (BCall.cartesianReq d)
      if B.cartFraction d < 0.99 then
        ((false, some ("cartesian_descend_failed")), clear_constraints s)
      else
        let s := s.push BCall.executeCartesian
        let l : Pos3 := { x := d.x, y := d.y, z := d.z + 0.10 }
        let s := s.push (BCall.cartesianReq l)
        if B.cartFraction l < 0.99 then
          ((false, some ("cartesian_lift_failed")), clear_constraints s)
        else
          let s := s.push BCall.executeCartesian
          ((true, none), clear_constraints s)

/-- bridge.py _do_place: default offset [0, 0, 0.10] when offset_xyz is
falsy, target lookup (exception caught with _clear_constraints), offset
applied then constraints, plan; clears constraints on every branch. -/
def _do_place (B : Backend) (st : Step) (s : ExecState) :
    (Bool × Option String) × ExecState :=
  let off := if truthyList st.offset_xyz then st.offset_xyz.getD [] else [0, 0, 0.10]
  match st.target.bind B.lookup with
  | none =>
    ((false, some ("place_exception:tf_lookup_failed")), clear_constraints s)
  | some base =>
    match off with
    | dx :: dy :: dz :: _ =>
      let pose : Pos3 := { x := base.x + dx, y := base.y + dy, z := base.z + dz }
      let s := apply_constraints st.constraints s
      let s := s.push BCall.setStartState
      let s := s.push (BCall.setPoseTarget pose)
      let s := s.push BCall.plan
      if B.planOk pose then
        let s := s.push BCall.executeTraj
        let s := clear_constraints s
        ((true, none), s)
      else
        ((false, some ("place_plan_failed")), clear_constraints s)
    | _ =>
      ((false, some ("place_exception:index_error")), clear_constraints s)

/-- bridge.py execute_step: dispatch on the action string. -/
def execute_step (B : Backend) (st : Step) (s : ExecState) :
    (Bool × Option String) × ExecState :=
  if st.action = "move_ee" then _do_move B st s
  else if st.action = "pick" then _do_pick B st s
  else if st.action = "place" then _do_place B st s
  else ((false, some (String.append ("unknown_action:") st.action)), s)

/-- The terminal message published on /nl_task_result. -/
inductive Emit where
  | ok (msg : String)
  | err (msg : String)
deriving DecidableEq

/-- The step loop of on_json: steps in order, the first failing step emits
step_index:reason and stops; all succeeding emits done. -/
def run_steps (B : Backend) : List Step → Nat → ExecState → Emit × ExecState
  | [], _, s => (Emit.ok ("done"), s)
  | st :: rest, i, s =>
    match execute_step B st s with
    | ((true, _), s1) => run_steps B rest (i + 1) s1
    | ((false, e), s1) =>
      (Emit.err (String.append (String.append (String.append ("step_") (toString i)) ":") (e.getD (""))), s1)

/-- The executor state at the top of the step loop: globals applied to the
move group, no constraint installed. -/
def startState (g : Globals) : ExecState :=
  { trace := [BCall.setVelScaling g.vel_scale, BCall.setAccelScaling g.accel_scale],
    constraintActive := false }

/-- on_json after successful validation: apply globals, run the steps. -/
def run_command (B : Backend) (cmd : Command) : Emit × ExecState :=
  run_steps B cmd.steps 0 (startState cmd.globals_)

/-- bridge.py on_json: json plus pydantic validation, then globals and the
step loop.  No call to the safety filter appears between validation and
execution in the source. -/
def on_json (B : Backend) (raw : JVal) : Emit × ExecState :=
  match model_validate_command raw with
  | Except.error _ => (Emit.err ("schema_error"), {})
  | Except.ok cmd => run_command B cmd

/-! Concrete fixtures: backends and commands used by the claim theorems
and their witnesses. -/

/-- A backend whose planner always reports an empty trajectory. -/
def BplanFail : Backend :=
  { planOk := fun _ => false, cartFraction := fun _ => 0, lookup := fun _ => none }

/-- A fully cooperative backend: every plan succeeds, every cartesian
request completes fully, every frame resolves to the origin. -/
def Bok : Backend :=
  { planOk := fun _ => true, cartFraction := fun _ => 1, lookup := fun _ => some { x := 0, y := 0, z := 0 } }

/-- A backend that fails to plan exactly for targets at x = 0.4. -/
def BfailAtX04 : Backend :=
  { planOk := fun p => if p.x = 0.4 then false else true,
    cartFraction := fun _ => 1, lookup := fun _ => none }

/-- A backend for pick runs: frames resolve to (0.1, 0.2, 0), plans
succeed, and the cartesian fraction is f below z = 0.1 (the descend
target) and g at or above it (the lift target). -/
def Bfrac (f g : ℚ) : Backend :=
  { planOk := fun _ => true,
    cartFraction := fun p => if p.z < 0.1 then f else g,
    lookup := fun _ => some { x := 0.1, y := 0.2, z := 0 } }

/-- A move_ee step targeting an in-workspace pose with keep_vertical set. -/
def moveKVStep : Step :=
  { action := "move_ee", pose_xyzrpy := some [0.5, 0.1, 0.2, 0, 0, 0],
    constraints := some { keep_vertical := true } }

/-- A single-step command installing a keep_vertical path constraint. -/
def cmdKV : Command := { steps := [moveKVStep] }

/-- A move_ee step whose pose lies outside the workspace envelope. -/
def outOfWsStep : Step :=
  { action := "move_ee", pose_xyzrpy := some [1.2, 0.8, 0.7, 0, 0, 0] }

/-- A step carrying an action outside the allow-list. -/
def flyStep : Step := { action := "fly" }

/-- First step out of workspace, second step with a disallowed action. -/
def cmd6 : Command := { steps := [outOfWsStep, flyStep] }

/-- A schema-valid command whose pose list has fewer than three entries
and whose first coordinate passes its axis bound. -/
def cmdShortPose : Command :=
  { steps := [{ action := "move_ee", pose_xyzrpy := some [0.5] }] }

/-- A pick step naming an object, with every other field defaulted. -/
def pickStep : Step := { action := "pick", object := some ("red_cube") }

/-- A place step naming a target. -/
def placeStep : Step := { action := "place", target := some ("blue_box") }

/-- The raw message of an out-of-workspace move command, as it would
arrive on /nl_task_json. -/
def raw2 : JVal :=
  JVal.obj [("steps", JVal.arr [JVal.obj
    [("action", JVal.str ("move_ee")),
     ("pose_xyzrpy", JVal.arr [JVal.num 1.2, JVal.num 0.8, JVal.num 0.7,
                               JVal.num 0, JVal.num 0, JVal.num 0])]])]

/-- The command raw2 validates to. -/
def cmd2 : Command := { steps := [outOfWsStep] }

/-- A raw command whose single step carries only an action string. -/
def rawAction (a : String) : JVal :=
  JVal.obj [("steps", JVal.arr [JVal.obj [("action", JVal.str a)]])]

/-- The command rawAction a validates to: one step with every optional
field defaulted. -/
def cmdOnly (a : String) : Command := { steps := [{ action := a }] }

/-- A raw pick command exercising every range-guarded numeric field of
the spec: both global scales, clearance_m and pregrasp_m. -/
def rawNums (v a c p : ℚ) : JVal :=
  JVal.obj [
    ("steps", JVal.arr [JVal.obj
      [("action", JVal.str ("pick")),
       ("grasp", JVal.obj [("approach_axis", JVal.str ("z-")), ("pregrasp_m", JVal.num p)]),
       ("constraints", JVal.obj [("keep_vertical", JVal.bool false), ("clearance_m", JVal.num c)])]]),
    ("globals", JVal.obj [("vel_scale", JVal.num v), ("accel_scale", JVal.num a)])]

/-- The command rawNums validates to, carrying the numbers unchanged. -/
def cmdNums (v a c p : ℚ) : Command :=
  { steps := [{ action := "pick",
                grasp := some { approach_axis := "z-", pregrasp_m := p },
                constraints := some { keep_vertical := false, clearance_m := c } }],
    globals_ := { vel_scale := v, accel_scale := a } }

/-- The pregrasp target a pick plans to: the object pose raised by the
pregrasp distance. -/
def pickPregraspTarget (base : Pos3) (st : Step) : Pos3 :=
  { x := base.x, y := base.y, z := base.z + pregraspOf st }

/-- The descend waypoint of a pick: the pregrasp target lowered by the
pregrasp distance minus the 0.01 touch-down margin. -/
def pickDescendTarget (base : Pos3) (st : Step) : Pos3 :=
  { x := base.x, y := base.y, z := (base.z + pregraspOf st) - (pregraspOf st - 0.01) }

/-- The lift waypoint of a pick: the descend waypoint raised by 0.10. -/
def pickLiftTarget (base : Pos3) (st : Step) : Pos3 :=
  { x := base.x, y := base.y, z := ((base.z + pregraspOf st) - (pregraspOf st - 0.01)) + 0.10 }

/-! Helper lemmas about the safety filter. -/

/-- On a list of steps none of which carries a truthy pose, the step loop
degenerates to the action allow-list check. -/
lemma checkSteps_no_pose : ∀ (steps : List Step),
    (∀ st ∈ steps, truthyList st.pose_xyzrpy = false) →
    checkSteps steps =
      if steps.all (fun st => ALLOWED_ACTIONS.contains st.action) then
        Except.ok none
      else Except.ok (some (FilterResult.err ("invalid_action")))
  | [], _ => by simp [checkSteps]
  | st :: rest, h => by
    have hst : truthyList st.pose_xyzrpy = false := h st (List.mem_cons_self st rest)
    have ih := checkSteps_no_pose rest (fun s hs => h s (List.mem_cons_of_mem st hs))
    by_cases hc : st.action ∈ ALLOWED_ACTIONS <;>
      simp [checkSteps, hst, ih, List.all_cons, hc]

/-- The axis walk of in_aabb cannot raise on a point list at least as long
as the list of bounded axes. -/
lemma in_aabbGo_total : ∀ (bs : List (ℚ × ℚ)) (ps : List ℚ),
    bs.length ≤ ps.length → ∃ b, in_aabbGo bs ps = Except.ok b
  | [], _, _ => ⟨true, rfl⟩
  | _ :: _, [], h => by simp at h
  | (lo, hi) :: bs, p :: ps, h => by
    by_cases hcmp : lo ≤ p ∧ p ≤ hi
    · simpa [in_aabbGo, hcmp] using in_aabbGo_total bs ps (by simpa using h)
    · exact ⟨false, by simp [in_aabbGo, hcmp]⟩

/-- The step loop of the filter cannot raise when every truthy pose list
has at least three entries. -/
lemma checkSteps_total : ∀ (steps : List Step),
    (∀ st ∈ steps, truthyList st.pose_xyzrpy = false ∨
       3 ≤ (st.pose_xyzrpy.getD []).length) →
    ∃ r, checkSteps steps = Except.ok r
  | [], _ => ⟨none, rfl⟩
  | st :: rest, h => by
    have ih := checkSteps_total rest (fun s hs => h s (List.mem_cons_of_mem st hs))
    by_cases hc : st.action ∈ ALLOWED_ACTIONS
    · cases ht : truthyList st.pose_xyzrpy with
      | false =>
        obtain ⟨r, hr⟩ := ih
        exact ⟨r, by simp [checkSteps, hc, ht, hr]⟩
      | true =>
        have hlen : 3 ≤ (st.pose_xyzrpy.getD []).length := by
          rcases h st (List.mem_cons_self st rest) with h1 | h1
          · rw [h1] at ht; cases ht
          · exact h1
        have htake : WORKSPACE_AABB.length ≤ ((st.pose_xyzrpy.getD []).take 3).length := by
          simp [WORKSPACE_AABB, List.length_take]
          omega
        obtain ⟨b, hb⟩ := in_aabbGo_total WORKSPACE_AABB ((st.pose_xyzrpy.getD []).take 3) htake
        cases b with
        | true =>
          obtain ⟨r, hr⟩ := ih
          exact ⟨r, by simp [checkSteps, hc, ht, in_aabb, hb, hr]⟩
        | false =>
          exact ⟨some (FilterResult.err ("out_of_workspace")),
            by simp [checkSteps, hc, ht, in_aabb, hb]⟩
    · exact ⟨some (FilterResult.err ("invalid_action")), by simp [checkSteps, hc]⟩

/-- C3 counterexample: on a schema-valid command whose non-empty pose list
has a single entry that passes its first axis bound, the filter raises an
IndexError instead of returning a decision — the check is not total. -/
theorem filter_raises_on_short_pose :
    validate_command cmdShortPose = Except.error PyErr.indexError := by
  norm_num [validate_command, checkSteps, cmdShortPose, truthyList,
    in_aabb, in_aabbGo, WORKSPACE_AABB, ALLOWED_ACTIONS, List.take]

/-- C3 (amended): for every schema-valid Command each of whose steps has a
falsy pose_xyzrpy or one with at least three entries, the safety filter
terminates with an accept or reject decision; it consults no resolver and
no backend (validate_command takes neither).  A non-empty pose list with
fewer than three entries can instead raise IndexError. -/
theorem filter_total_on_wellformed_poses (cmd : Command)
    (h : ∀ st ∈ cmd.steps, truthyList st.pose_xyzrpy = false ∨
       3 ≤ (st.pose_xyzrpy.getD []).length) :
    ∃ r, validate_command cmd = Except.ok r := by
  obtain ⟨r, hr⟩ := checkSteps_total cmd.steps h
  cases r with
  | some v => exact ⟨v, by simp [validate_command, hr]⟩
  | none =>
    rw [validate_command, hr]
    by_cases h1 : VEL_CAP < cmd.globals_.vel_scale
    · exact ⟨FilterResult.err ("vel_too_high"), by simp [h1]⟩
    · by_cases h2 : ACC_CAP < cmd.globals_.accel_scale
      · exact ⟨FilterResult.err ("accel_too_high"), by simp [h1, h2]⟩
      · exact ⟨FilterResult.ok, by simp [h1, h2]⟩

/-- C3 witness: the filter decides a command mixing a poseless pick step
with a six-entry move pose. -/
theorem filter_total_on_wellformed_poses_witness :
    ∃ r, validate_command { steps := [pickStep, moveKVStep] } = Except.ok r :=
  filter_total_on_wellformed_poses { steps := [pickStep, moveKVStep] } (by decide)

/-- C6 counterexample: with the first step out of the workspace and the
second step carrying a disallowed action, the filter reports
out_of_workspace, not the invalid_action the claim predicts. -/
theorem first_step_pose_violation_wins :
    validate_command cmd6 = Except.ok (FilterResult.err ("out_of_workspace")) ∧
      FilterResult.err ("out_of_workspace") ≠ FilterResult.err ("invalid_action") := by
  constructor
  · norm_num [validate_command, checkSteps, cmd6, outOfWsStep, truthyList,
      in_aabb, in_aabbGo, WORKSPACE_AABB, ALLOWED_ACTIONS, List.take]
  · decide

/-- C6 (amended): the checks run per step in order — for each step the
action allow-list and then the workspace bound — before the global
velocity and acceleration caps; the first violation in this traversal
wins.  In particular a workspace violation of the first step is reported
no matter what violations later steps or the globals carry. -/
theorem stepwise_check_order (rest : List Step) (g : Globals) :
    validate_command { steps := outOfWsStep :: rest, globals_ := g } =
      Except.ok (FilterResult.err ("out_of_workspace")) := by
  norm_num [validate_command, checkSteps, outOfWsStep, truthyList,
    in_aabb, in_aabbGo, WORKSPACE_AABB, ALLOWED_ACTIONS, List.take]

/-- C7: with every step passing the per-step checks, the filter accepts
exactly when both global scales are at or below their caps — strictly
above either cap rejects (vel_too_high checked first), equality at the
caps is accepted. -/
theorem scale_caps_inclusive (cmd : Command)
    (h : checkSteps cmd.steps = Except.ok none) :
    (validate_command cmd = Except.ok FilterResult.ok ↔
       cmd.globals_.vel_scale ≤ VEL_CAP ∧ cmd.globals_.accel_scale ≤ ACC_CAP) ∧
    (VEL_CAP < cmd.globals_.vel_scale →
       validate_command cmd = Except.ok (FilterResult.err ("vel_too_high"))) ∧
    (cmd.globals_.vel_scale ≤ VEL_CAP → ACC_CAP < cmd.globals_.accel_scale →
       validate_command cmd = Except.ok (FilterResult.err ("accel_too_high"))) := by
  rw [validate_command, h]
  refine ⟨?_, ?_, ?_⟩
  · by_cases h1 : VEL_CAP < cmd.globals_.vel_scale
    · simp [h1, not_le.mpr h1]
    · by_cases h2 : ACC_CAP < cmd.globals_.accel_scale
      · simp [h1, h2, not_le.mpr h2]
      · simp [h1, h2, not_lt.mp h1, not_lt.mp h2]
  · intro h1
    simp [h1]
  · intro h1 h2
    simp [not_lt.mpr h1, h2]

/-- C7 witness: both scales exactly at the 0.6 caps are accepted, and a
scale strictly above rejects with vel_too_high. -/
theorem scale_caps_inclusive_witness :
    (validate_command { steps := [], globals_ := { vel_scale := 0.6, accel_scale := 0.6 } } =
        Except.ok FilterResult.ok ↔
      (0.6 : ℚ) ≤ VEL_CAP ∧ (0.6 : ℚ) ≤ ACC_CAP) ∧
    (VEL_CAP < (0.7 : ℚ) →
      validate_command { steps := [], globals_ := { vel_scale := 0.7 } } =
        Except.ok (FilterResult.err ("vel_too_high"))) :=
  ⟨(scale_caps_inclusive { steps := [], globals_ := { vel_scale := 0.6, accel_scale := 0.6 } }
      rfl).1,
   (scale_caps_inclusive { steps := [], globals_ := { vel_scale := 0.7 } } rfl).2.1⟩

/-- C10: when no step carries a truthy pose_xyzrpy (named-object picks,
frame plus offset targets, empty pose lists), the filter runs no position
bound check and accepts exactly when every action is allowed and both
global scales are at or below their caps. -/
theorem filter_skips_poseless_steps (cmd : Command)
    (h : ∀ st ∈ cmd.steps, truthyList st.pose_xyzrpy = false) :
    validate_command cmd = Except.ok FilterResult.ok ↔
      (cmd.steps.all (fun st => ALLOWED_ACTIONS.contains st.action) = true ∧
       cmd.globals_.vel_scale ≤ VEL_CAP ∧ cmd.globals_.accel_scale ≤ ACC_CAP) := by
  rw [validate_command, checkSteps_no_pose cmd.steps h]
  cases ha : cmd.steps.all (fun st => ALLOWED_ACTIONS.contains st.action) with
  | false => simp
  | true =>
    simp only [if_pos rfl]
    by_cases h1 : VEL_CAP < cmd.globals_.vel_scale
    · simp [h1, not_le.mpr h1]
    · by_cases h2 : ACC_CAP < cmd.globals_.accel_scale
      · simp [h1, h2, not_le.mpr h2]
      · simp [h1, h2, not_lt.mp h1, not_lt.mp h2]

/-- C10 witness: a pick and place command with named targets and default
scales is accepted with no bounds check possible. -/
theorem filter_skips_poseless_steps_witness :
    validate_command { steps := [pickStep, placeStep] } = Except.ok FilterResult.ok :=
  (filter_skips_poseless_steps { steps := [pickStep, placeStep] } (by decide)).mpr
    ⟨by decide, by norm_num [VEL_CAP], by norm_num [ACC_CAP]⟩


/-! Claims about the pydantic parsing layer. -/

/-- C8 counterexample: model_validate accepts a step whose action string
is none of the three known variants and constructs the Command holding it
— parsing does not fail with a SchemaError. -/
theorem schema_accepts_unknown_action :
    model_validate_command (rawAction ("fly")) = Except.ok (cmdOnly ("fly")) ∧
      ALLOWED_ACTIONS.contains ("fly") = false := by
  constructor
  · rfl
  · decide

/-- C8 (amended): parsing accepts any string as an action and stores it
unchanged; an action outside the known set is rejected only downstream,
by the safety filter as invalid_action and by the step executor as
unknown_action. -/
theorem unknown_action_rejected_downstream (a : String) :
    model_validate_command (rawAction a) = Except.ok (cmdOnly a) ∧
    (ALLOWED_ACTIONS.contains a = false →
      validate_command (cmdOnly a) = Except.ok (FilterResult.err ("invalid_action"))) ∧
    (∀ (B : Backend) (s : ExecState), a ≠ "move_ee" → a ≠ "pick" → a ≠ "place" →
      (execute_step B { action := a } s).1 =
        (false, some (String.append ("unknown_action:") a))) := by
  refine ⟨rfl, ?_, ?_⟩
  · intro h
    have h' : a ∉ ALLOWED_ACTIONS := by simpa using h
    simp [validate_command, checkSteps, cmdOnly, truthyList, h']
  · intro B s h1 h2 h3
    simp [execute_step, h1, h2, h3]

/-- C8 witness: the three downstream facts at the concrete action fly. -/
theorem unknown_action_rejected_downstream_witness :
    model_validate_command (rawAction ("fly")) = Except.ok (cmdOnly ("fly")) ∧
      validate_command (cmdOnly ("fly")) = Except.ok (FilterResult.err ("invalid_action")) ∧
      (execute_step Bok { action := "fly" } {}).1 =
        (false, some (String.append ("unknown_action:") ("fly"))) :=
  ⟨(unknown_action_rejected_downstream ("fly")).1,
   (unknown_action_rejected_downstream ("fly")).2.1 (by decide),
   (unknown_action_rejected_downstream ("fly")).2.2 Bok {} (by decide) (by decide) (by decide)⟩

/-- C9 counterexample: a velocity scale of 5 (outside the unit interval),
a negative clearance and a negative pregrasp distance are all accepted by
model_validate and stored unchanged in the Command — parsing neither
rejects nor clamps them. -/
theorem schema_accepts_out_of_range_numbers :
    model_validate_command (rawNums 5 0.3 (-1) (-0.5)) =
        Except.ok (cmdNums 5 0.3 (-1) (-0.5)) ∧
      (1 : ℚ) < 5 ∧ (-1 : ℚ) < 0 ∧ (-0.5 : ℚ) < 0 := by
  refine ⟨rfl, ?_, ?_, ?_⟩ <;> norm_num

/-- C9 (amended): the parsing layer applies no range or bound check to
velocity_scale, acceleration_scale, clearance_m or pregrasp_m: every
rational value of each is accepted verbatim into the Command. -/
theorem schema_no_range_checks (v a c p : ℚ) :
    model_validate_command (rawNums v a c p) = Except.ok (cmdNums v a c p) := rfl

/-! Helper lemmas about the step loop. -/

/-- A step reported successful continues the loop in its final state. -/
lemma run_steps_cons_ok (B : Backend) (st : Step) (rest : List Step) (i : Nat)
    (s s1 : ExecState) (e : Option String)
    (h : execute_step B st s = ((true, e), s1)) :
    run_steps B (st :: rest) i s = run_steps B rest (i + 1) s1 := by
  rw [run_steps, h]

/-- A step reported failed stops the loop at once with its message. -/
lemma run_steps_cons_fail (B : Backend) (st : Step) (rest : List Step) (i : Nat)
    (s s1 : ExecState) (e : Option String)
    (h : execute_step B st s = ((false, e), s1)) :
    run_steps B (st :: rest) i s =
      (Emit.err (String.append (String.append (String.append ("step_") (toString i)) ":")
         (e.getD (""))), s1) := by
  rw [run_steps, h]

/-! Claims about the NLBridge executor. -/

/-- C1 failing input: a single move_ee step with keep_vertical set, against
a backend whose planner fails.  The bridge answers step_0:plan_failed but
the installed path constraint is still active when run returns — _do_move
clears constraints only on its success path, unlike _do_pick and
_do_place. -/
theorem move_plan_failure_leaves_constraint_installed :
    (run_command BplanFail cmdKV).1 = Emit.err ("step_0:plan_failed") ∧
      (run_command BplanFail cmdKV).2.constraintActive = true ∧
      (run_command BplanFail cmdKV).2.trace =
        [BCall.setVelScaling 0.5, BCall.setAccelScaling 0.3,
         BCall.clearPathConstraints, BCall.setPathConstraints,
         BCall.setStartState, BCall.setPoseTarget { x := 0.5, y := 0.1, z := 0.2 },
         BCall.plan] := by
  have h : execute_step BplanFail moveKVStep (startState {}) =
      ((false, some ("plan_failed")),
       { trace := [BCall.setVelScaling 0.5, BCall.setAccelScaling 0.3,
                   BCall.clearPathConstraints, BCall.setPathConstraints,
                   BCall.setStartState, BCall.setPoseTarget { x := 0.5, y := 0.1, z := 0.2 },
                   BCall.plan],
         constraintActive := true }) := by
    simp [execute_step, _do_move, moveKVStep, pose_from_step, truthyList,
      apply_constraints, BplanFail, startState, ExecState.push]
  have hrun : run_command BplanFail cmdKV =
      (Emit.err (String.append (String.append (String.append ("step_") (toString 0)) ":")
         ((some ("plan_failed")).getD (""))),
       { trace := [BCall.setVelScaling 0.5, BCall.setAccelScaling 0.3,
                   BCall.clearPathConstraints, BCall.setPathConstraints,
                   BCall.setStartState, BCall.setPoseTarget { x := 0.5, y := 0.1, z := 0.2 },
                   BCall.plan],
         constraintActive := true }) := by
    rw [run_command]
    exact run_steps_cons_fail _ _ _ _ _ _ _ h
  rw [hrun]
  exact ⟨rfl, rfl, rfl⟩

/-- C2 failing input: the raw message of a move command whose pose lies
outside the workspace envelope.  It passes model_validate, the safety
filter (never invoked by on_json) would reject it, and yet on_json issues
the motion request and reports done — execution is not gated on the
filter. -/
theorem on_json_executes_without_safety_filter :
    model_validate_command raw2 = Except.ok cmd2 ∧
      validate_command cmd2 = Except.ok (FilterResult.err ("out_of_workspace")) ∧
      BCall.plan ∈ (on_json Bok raw2).2.trace ∧
      (on_json Bok raw2).1 = Emit.ok ("done") := by
  refine ⟨rfl, ?_, ?_, ?_⟩
  · norm_num [validate_command, checkSteps, cmd2, outOfWsStep, truthyList,
      in_aabb, in_aabbGo, WORKSPACE_AABB, ALLOWED_ACTIONS, List.take]
  · decide
  · decide

/-- C4: steps run strictly in sequence with abort on the first failure.
If the first step succeeds and the second fails with reason r, the command
with a third step behaves exactly like the command without it (so no
backend call is issued for the third step) and the outbound message is
step_1:r; if instead all three steps succeed the result is ok done. -/
theorem run_aborts_on_first_failing_step (Bk : Backend) (g : Globals)
    (A B2 C2 : Step) (r : String) :
    (((execute_step Bk A (startState g)).1 = (true, none) ∧
      (execute_step Bk B2 (execute_step Bk A (startState g)).2).1 = (false, some r)) →
      (run_command Bk { steps := [A, B2, C2], globals_ := g } =
         run_command Bk { steps := [A, B2], globals_ := g } ∧
       (run_command Bk { steps := [A, B2], globals_ := g }).1 =
         Emit.err (String.append ("step_1:") r))) ∧
    (((execute_step Bk A (startState g)).1 = (true, none) ∧
      (execute_step Bk B2 (execute_step Bk A (startState g)).2).1 = (true, none) ∧
      (execute_step Bk C2 (execute_step Bk B2 (execute_step Bk A (startState g)).2).2).1 =
        (true, none)) →
      (run_command Bk { steps := [A, B2, C2], globals_ := g }).1 = Emit.ok ("done")) := by
  constructor
  · rintro ⟨h1, h2⟩
    have e1 : execute_step Bk A (startState g) =
        ((true, none), (execute_step Bk A (startState g)).2) := by
      rw [← h1]
    have e2 : execute_step Bk B2 (execute_step Bk A (startState g)).2 =
        ((false, some r), (execute_step Bk B2 (execute_step Bk A (startState g)).2).2) := by
      rw [← h2]
    constructor
    · rw [run_command, run_command, run_steps_cons_ok _ _ _ _ _ _ _ e1,
        run_steps_cons_ok _ _ _ _ _ _ _ e1, run_steps_cons_fail _ _ _ _ _ _ _ e2,
        run_steps_cons_fail _ _ _ _ _ _ _ e2]
    · rw [run_command, run_steps_cons_ok _ _ _ _ _ _ _ e1,
        run_steps_cons_fail _ _ _ _ _ _ _ e2]
      rfl
  · rintro ⟨h1, h2, h3⟩
    have e1 : execute_step Bk A (startState g) =
        ((true, none), (execute_step Bk A (startState g)).2) := by
      rw [← h1]
    have e2 : execute_step Bk B2 (execute_step Bk A (startState g)).2 =
        ((true, none), (execute_step Bk B2 (execute_step Bk A (startState g)).2).2) := by
      rw [← h2]
    have e3 : execute_step Bk C2 (execute_step Bk B2 (execute_step Bk A (startState g)).2).2 =
        ((true, none),
         (execute_step Bk C2 (execute_step Bk B2 (execute_step Bk A (startState g)).2).2).2) := by
      rw [← h3]
    rw [run_command, run_steps_cons_ok _ _ _ _ _ _ _ e1, run_steps_cons_ok _ _ _ _ _ _ _ e2,
      run_steps_cons_ok _ _ _ _ _ _ _ e3]
    rfl

/-- C4 witness: with a backend that cannot plan to x = 0.4, a command
whose second step targets x = 0.4 stops at step_1:plan_failed and equals
the two-step run; with the cooperative backend all three steps succeed. -/
theorem run_aborts_on_first_failing_step_witness :
    (run_command BfailAtX04
        { steps := [moveKVStep, { action := "move_ee", pose_xyzrpy := some [0.4, 0, 0.2, 0, 0, 0] },
                    moveKVStep] } =
      run_command BfailAtX04
        { steps := [moveKVStep, { action := "move_ee", pose_xyzrpy := some [0.4, 0, 0.2, 0, 0, 0] }] } ∧
     (run_command BfailAtX04
        { steps := [moveKVStep, { action := "move_ee", pose_xyzrpy := some [0.4, 0, 0.2, 0, 0, 0] }] }).1 =
       Emit.err (String.append ("step_1:") ("plan_failed"))) ∧
    (run_command Bok { steps := [moveKVStep, moveKVStep, moveKVStep] }).1 = Emit.ok ("done") :=
  ⟨(run_aborts_on_first_failing_step BfailAtX04 {} moveKVStep
      { action := "move_ee", pose_xyzrpy := some [0.4, 0, 0.2, 0, 0, 0] } moveKVStep
      ("plan_failed")).1
    ⟨by norm_num [execute_step, _do_move, moveKVStep, pose_from_step, truthyList,
        apply_constraints, clear_constraints, BfailAtX04, startState, ExecState.push],
     by norm_num [execute_step, _do_move, moveKVStep, pose_from_step, truthyList,
        apply_constraints, clear_constraints, BfailAtX04, startState, ExecState.push]⟩,
   (run_aborts_on_first_failing_step Bok {} moveKVStep moveKVStep moveKVStep ("")).2
    ⟨by norm_num [execute_step, _do_move, moveKVStep, pose_from_step, truthyList,
        apply_constraints, clear_constraints, Bok, startState, ExecState.push],
     by norm_num [execute_step, _do_move, moveKVStep, pose_from_step, truthyList,
        apply_constraints, clear_constraints, Bok, startState, ExecState.push],
     by norm_num [execute_step, _do_move, moveKVStep, pose_from_step, truthyList,
        apply_constraints, clear_constraints, Bok, startState, ExecState.push]⟩⟩

/-- C5: once the object resolves and the pregrasp plan succeeds, the pick
outcome is cartesian_descend_failed exactly when the reported descend
fraction is strictly below 0.99, and — when the descend fraction is at
least 0.99 — it is cartesian_lift_failed exactly when the lift fraction is
strictly below 0.99: the acceptance boundary is inclusive at 0.99. -/
theorem pick_cartesian_threshold_inclusive (Bk : Backend) (st : Step) (s : ExecState)
    (base : Pos3) (hobj : st.object.bind Bk.lookup = some base)
    (hplan : Bk.planOk (pickPregraspTarget base st) = true) :
    ((_do_pick Bk st s).1 = (false, some ("cartesian_descend_failed")) ↔
       Bk.cartFraction (pickDescendTarget base st) < 0.99) ∧
    (0.99 ≤ Bk.cartFraction (pickDescendTarget base st) →
      ((_do_pick Bk st s).1 = (false, some ("cartesian_lift_failed")) ↔
        Bk.cartFraction (pickLiftTarget base st) < 0.99)) := by
  have key : (_do_pick Bk st s).1 =
      (if Bk.cartFraction (pickDescendTarget base st) < 0.99 then
        ((false, some ("cartesian_descend_failed")) : Bool × Option String)
       else if Bk.cartFraction (pickLiftTarget base st) < 0.99 then
        (false, some ("cartesian_lift_failed"))
       else (true, none)) := by
    simp only [_do_pick, hobj, pickPregraspTarget, pickDescendTarget, pickLiftTarget] at hplan ⊢
    simp [hplan]
    split_ifs <;> rfl
  rw [key]
  constructor
  · by_cases hd : Bk.cartFraction (pickDescendTarget base st) < 0.99
    · simp [hd]
    · by_cases hl : Bk.cartFraction (pickLiftTarget base st) < 0.99 <;> simp [hd, hl]
  · intro hge
    have hd : ¬ Bk.cartFraction (pickDescendTarget base st) < 0.99 := not_lt.mpr hge
    by_cases hl : Bk.cartFraction (pickLiftTarget base st) < 0.99 <;> simp [hd, hl]

/-- C5 witness: at descend fraction 0.989 the pick fails with
cartesian_descend_failed, at descend 0.99 and lift 0.989 it fails with
cartesian_lift_failed, and at 0.99/0.99 it is not a descend failure. -/
theorem pick_cartesian_threshold_inclusive_witness :
    (_do_pick (Bfrac 0.989 1) pickStep {}).1 = (false, some ("cartesian_descend_failed")) ∧
      (_do_pick (Bfrac 0.99 0.989) pickStep {}).1 = (false, some ("cartesian_lift_failed")) ∧
      (_do_pick (Bfrac 0.99 0.99) pickStep {}).1 ≠ (false, some ("cartesian_descend_failed")) :=
  ⟨(pick_cartesian_threshold_inclusive (Bfrac 0.989 1) pickStep {}
      { x := 0.1, y := 0.2, z := 0 } rfl rfl).1.mpr
    (by norm_num [Bfrac, pickDescendTarget, pregraspOf, pickStep]),
   (pick_cartesian_threshold_inclusive (Bfrac 0.99 0.989) pickStep {}
      { x := 0.1, y := 0.2, z := 0 } rfl rfl).2
    (by norm_num [Bfrac, pickDescendTarget, pregraspOf, pickStep]) |>.mpr
    (by norm_num [Bfrac, pickLiftTarget, pregraspOf, pickStep]),
   fun h =>
    absurd ((pick_cartesian_threshold_inclusive (Bfrac 0.99 0.99) pickStep {}
        { x := 0.1, y := 0.2, z := 0 } rfl rfl).1.mp h)
      (by norm_num [Bfrac, pickDescendTarget, pregraspOf, pickStep])⟩

end UR5
